import Mathlib

/-!
Verification development for the serial command-line interpreter in
src/cmdline.c (laureline-firmware).  The module is embedded shallowly:
the file-scope mutable globals (cl_enabled, cl_count, cl_buf) together
with the configuration record become an explicit state record, every
byte written to the serial output becomes an event in a trace, and the
external collaborators (EEPROM persistence, uptime formatter, board
revision string, system clock) are read from an environment record.
Machine integers are Nat with explicit reductions modulo 2^8 / 2^32
where the C types wrap.
-/

namespace Cmdline

/-- Byte strings (C strings without their terminating NUL) as lists of
byte values. -/
abbrev Bytes := List Nat

/-- ASCII byte list of a Lean string literal. -/
def strB (s : String) : Bytes := s.data.map Char.toNat

/-- C tolower on a byte (ASCII). -/
def tolowerB (c : Nat) : Nat := if 65 ≤ c ∧ c ≤ 90 then c + 32 else c

/-- C strncasecmp on NUL-free byte lists: the end of a list is the NUL
terminator of the C string. -/
def strncasecmp : Bytes → Bytes → Nat → Int
  | _, _, 0 => 0
  | [], [], _ + 1 => 0
  | [], b :: _, _ + 1 => 0 - (tolowerB b : Int)
  | a :: _, [], _ + 1 => (tolowerB a : Int)
  | a :: as, b :: bs, n + 1 =>
      if tolowerB a = tolowerB b then strncasecmp as bs n
      else (tolowerB a : Int) - (tolowerB b : Int)

/-- Read the C string stored in byte-addressed memory from index i on:
collect bytes until the first 0.  In the model every cell the program
can reach beyond its writes holds 0, and no write happens at an index
above 64, so fuel 80 is past any reachable non-zero cell. -/
def cstrAux (buf : Nat → Nat) : Nat → Nat → Bytes
  | _, 0 => []
  | i, fuel + 1 => if buf i = 0 then [] else buf i :: cstrAux buf (i + 1) fuel

/-- C string starting at index i of the buffer. -/
def cstr (buf : Nat → Nat) (i : Nat) : Bytes := cstrAux buf i 80

/-- The C library bsearch loop (newlib and glibc probe the same indices):
binary search over tbl[lo..hi) probing (lo+hi)/2.  Fuel bounds the
number of probes; tbl.length + 1 probes always suffice. -/
def bsearchAux (cmp : α → Int) (tbl : List α) : Nat → Nat → Nat → Option α
  | 0, _, _ => none
  | fuel + 1, lo, hi =>
    if lo < hi then
      let idx := (lo + hi) / 2
      match tbl.get? idx with
      | none => none
      | some p =>
        if cmp p < 0 then bsearchAux cmp tbl fuel lo idx
        else if 0 < cmp p then bsearchAux cmp tbl fuel (idx + 1) hi
        else some p
    else none

/-- bsearch(key, tbl, nmemb, size, compar) with compar partially applied
to the key. -/
def bsearchC (cmp : α → Int) (tbl : List α) : Option α :=
  bsearchAux cmp tbl (tbl.length + 1) 0 tbl.length

/-- The configuration fields addressed by the value table, plus the
schema version field touched by cliDefaults. -/
inductive CfgField
  | gps_baud_rate
  | ip_addr
  | ip_gateway
  | ip_netmask
  deriving DecidableEq

/-- The live configuration record cfg (its full layout belongs to the
EEPROM collaborator; only the fields this module touches are modelled).
Each word field is a Nat kept below 2^32 by the stores. -/
structure Cfg where
  gps_baud_rate : Nat
  ip_addr : Nat
  ip_gateway : Nat
  ip_netmask : Nat
  version : Nat
  deriving DecidableEq

/-- Read a configuration field through a variable's pointer. -/
def Cfg.get (c : Cfg) : CfgField → Nat
  | .gps_baud_rate => c.gps_baud_rate
  | .ip_addr => c.ip_addr
  | .ip_gateway => c.ip_gateway
  | .ip_netmask => c.ip_netmask

/-- Store a configuration field through a variable's pointer. -/
def Cfg.setF (c : Cfg) : CfgField → Nat → Cfg
  | .gps_baud_rate, v => { c with gps_baud_rate := v }
  | .ip_addr, v => { c with ip_addr := v }
  | .ip_gateway, v => { c with ip_gateway := v }
  | .ip_netmask, v => { c with ip_netmask := v }

/-- vartype_e from cmdline.c. -/
inductive vartype_e
  | VAR_UINT32
  | VAR_BOOL
  | VAR_IP4
  deriving DecidableEq

/-- clivalue_t: variable name, kind tag, pointer into cfg. -/
structure clivalue where
  name : Bytes
  type : vartype_e
  ptr : CfgField

/-- value_table entry for gps_baud_rate. -/
def vGps : clivalue := { name := strB "gps_baud_rate", type := .VAR_UINT32, ptr := .gps_baud_rate }

/-- value_table entry for ip_addr. -/
def vIpAddr : clivalue := { name := strB "ip_addr", type := .VAR_IP4, ptr := .ip_addr }

/-- value_table entry for ip_gateway. -/
def vIpGw : clivalue := { name := strB "ip_gateway", type := .VAR_IP4, ptr := .ip_gateway }

/-- value_table entry for ip_netmask. -/
def vIpMask : clivalue := { name := strB "ip_netmask", type := .VAR_IP4, ptr := .ip_netmask }

/-- value_table from cmdline.c, in source order. -/
def value_table : List clivalue := [vGps, vIpAddr, vIpGw, vIpMask]

/-- Observable events: serial_puts output, serial_putc output, the
pre-reset CoTickDelay, and the SCB AIRCR system-reset write. -/
inductive Ev
  | out (s : Bytes)
  | outc (c : Nat)
  | delay
  | reset
  deriving DecidableEq

/-- Modelled from the spec: the EERR_* result codes of eeprom_write_cfg
are declared in eeprom.h, which is not among the given sources.  Spec
section 6 lists the persistence results as one of OK, Timeout,
NotAcknowledged, Fault, OtherFailure; the codes are distinct integers,
modelled here as an enumeration. -/
inductive EepromResult
  | ok
  | timeout
  | nack
  | fault
  | other
  deriving DecidableEq

/-- External collaborators consumed by the handlers: the persistence
result, the uptime formatter's string, the system clock frequency and
the board revision string (BOARD_REV macro from outside cmdline.c). -/
structure Env where
  eeprom_result : EepromResult
  uptime : Bytes
  system_frequency : Int
  board_rev : Bytes

/-- The module's mutable state: cl_enabled, cl_count, the 64-byte line
buffer cl_buf as byte-addressed memory, the configuration record, and
the trace of emitted events.  writes is bookkeeping only: it records
the index of every store into cl_buf, so that theorems can speak about
which buffer cells the code touches. -/
structure St where
  cl_enabled : Nat
  cl_count : Nat
  cl_buf : Nat → Nat
  cfg : Cfg
  events : List Ev
  writes : List Nat

/-- sizeof(cl_buf). -/
def CL_BUF_SIZE : Nat := 64

/-- sizeof(fmt_buf). -/
def FMT_BUF_SIZE : Nat := 64

/-- A store cl_buf[i] = v, with its index recorded. -/
def bufWrite (s : St) (i v : Nat) : St :=
  { s with cl_buf := fun j => if j = i then v else s.cl_buf j,
           writes := s.writes ++ [i] }

/-- memset(cl_buf, 0, sizeof(cl_buf)): stores 0 at indices 0..63. -/
def bufClear (s : St) : St :=
  { s with cl_buf := fun _ => 0,
           writes := s.writes ++ List.range CL_BUF_SIZE }

/-- uartPrint: serial_puts of a string. -/
def uartPrint (st : St) (v : Bytes) : St :=
  { st with events := st.events ++ [Ev.out v] }

/-- uart_printf: vsnprintf renders into the 64-byte fmt_buf, keeping at
most sizeof(fmt_buf) - 1 characters plus the NUL, then serial_puts of
fmt_buf.  The model receives the fully rendered text as its argument
and applies the truncation. -/
def uart_printf (st : St) (rendered : Bytes) : St :=
  { st with events := st.events ++ [Ev.out (rendered.take (FMT_BUF_SIZE - 1))] }

/-- serial_putc of one byte. -/
def serial_putc (st : St) (c : Nat) : St :=
  { st with events := st.events ++ [Ev.outc c] }

/-- cliPrompt: reset count, set enabled, emit the prompt. -/
def cliPrompt (st : St) : St :=
  uartPrint { st with cl_count := 0, cl_enabled := 1 } (strB "\r\n# ")

/-- Decimal rendering of an unsigned value (printf %u). -/
def decB (n : Nat) : Bytes := strB (toString n)

/-- Decimal rendering of a signed value (printf %d). -/
def intB (i : Int) : Bytes := strB (toString i)

/-- The text cliPrintVar formats for a variable (before the fmt_buf
truncation applied by uart_printf).  The VAR_IP4 case reads the four
bytes of the stored word in memory order through a uint8_t pointer; the
target CPU is little-endian, so byte 0 is the least significant byte.
The VAR_BOOL case reads the first byte and normalizes it to 0 or 1. -/
def renderVar (cfg : Cfg) (v : clivalue) : Bytes :=
  match v.type with
  | .VAR_UINT32 => decB (cfg.get v.ptr)
  | .VAR_BOOL => decB (if cfg.get v.ptr % 256 ≠ 0 then 1 else 0)
  | .VAR_IP4 =>
      let w := cfg.get v.ptr
      decB (w % 256) ++ strB "." ++ decB (w / 256 % 256) ++ strB "." ++
        decB (w / 65536 % 256) ++ strB "." ++ decB (w / 16777216 % 256)

/-- cliPrintVar: emit the formatted value through uart_printf.  The
full argument is unused by the formatting, as in the source. -/
def cliPrintVar (st : St) (v : clivalue) (full : Nat) : St :=
  uart_printf st (renderVar st.cfg v)

/-- Accumulator loop of the decimal parse. -/
def atoiAux : Bytes → Nat → Nat
  | [], acc => acc
  | c :: cs, acc =>
      if 48 ≤ c ∧ c ≤ 57 then atoiAux cs (acc * 10 + (c - 48)) else acc

/-- Modelled from the spec: atoi_decimal is defined in util.c, which is
not among the given sources.  Spec section 4.4: parse the leading
decimal digits of the text into an unsigned integer; a non-digit
character aborts the scan. -/
def atoi_decimal (s : Bytes) : Nat := atoiAux s 0

/-- The dotted-quad scan loop of cliSetVar's VAR_IP4 case: val is the
uint32 accumulator, val2 the current uint8 octet (octet arithmetic
wraps modulo 256 as the uint8_t does). -/
def ip4ScanAux : Bytes → Nat → Nat → Nat × Nat
  | [], val, val2 => (val, val2)
  | c :: cs, val, val2 =>
      if c = 46 then ip4ScanAux cs ((val <<< 8 ||| val2) % 2 ^ 32) 0
      else if 48 ≤ c ∧ c ≤ 57 then ip4ScanAux cs val ((val2 * 10 + (c - 48)) % 256)
      else ip4ScanAux cs val val2

/-- The full dotted-quad parse: scan, then one final shift to place the
last octet. -/
def ip4_parse (s : Bytes) : Nat :=
  let p := ip4ScanAux s 0 0
  (p.1 <<< 8 ||| p.2) % 2 ^ 32

/-- cliSetVar.  In the source the VAR_IP4 case parses the dotted quad
into val, but the store through var->ptr (of the byte-swapped value) is
commented out, so the configuration word is left unchanged and the
parse result is dead. -/
def cliSetVar (cfg : Cfg) (v : clivalue) (s : Bytes) : Cfg :=
  match v.type with
  | .VAR_UINT32 => cfg.setF v.ptr (atoi_decimal s % 2 ^ 32)
  | .VAR_BOOL => cfg.setF v.ptr (if atoi_decimal s ≠ 0 then 1 else 0)
  | .VAR_IP4 =>
      let _val := ip4_parse s
      cfg

/-- The command handlers as a closed tag set (the source's table of
function pointers), dispatched through runCmd below. -/
inductive CmdId
  | defaults
  | exit
  | help
  | info
  | save
  | set
  | uptime
  | version
  deriving DecidableEq

/-- clicmd_t: command name, description line, handler. -/
structure clicmd where
  name : Bytes
  param : Bytes
  func : CmdId

/-- cmd_table from cmdline.c, in source (sorted) order. -/
def cmd_table : List clicmd :=
  [ { name := strB "defaults", param := strB "reset to factory defaults and reboot", func := .defaults },
    { name := strB "exit", param := strB "leave command mode", func := .exit },
    { name := strB "help", param := strB "", func := .help },
    { name := strB "info", param := strB "show runtime information", func := .info },
    { name := strB "save", param := strB "save changes and reboot", func := .save },
    { name := strB "set", param := strB "name=value or blank or * for list", func := .set },
    { name := strB "uptime", param := strB "show the system uptime", func := .uptime },
    { name := strB "version", param := strB "show version", func := .version } ]

/-- cliCompare: the bsearch comparator.  The key's name is the held
line; the candidate is a table entry; the comparison length is the
candidate entry's name length. -/
def cliCompare (line : Bytes) (b : clicmd) : Int :=
  strncasecmp line b.name b.name.length

/-- VERSION string compiled into cmdline.c. -/
def VERSION : Bytes := strB "1.2.3.4"

/-- Modelled from the spec: CFG_VERSION is the schema-version constant
from eeprom.h, outside the given sources; its value is immaterial to
every claim here. -/
def CFG_VERSION : Nat := 1

/-- cliWriteConfig: print the writing notice, call the persistence
collaborator, branch on its result; on success print OK, delay one
second, then write the reset request to SCB AIRCR. -/
def cliWriteConfig (env : Env) (st : St) : St :=
  let st := uartPrint st (strB "Writing EEPROM...\r\n")
  match env.eeprom_result with
  | .timeout => uartPrint st (strB "ERROR: timeout while writing EEPROM\r\n")
  | .nack => uartPrint st (strB "ERROR: EEPROM is faulty or missing\r\n")
  | .fault => uartPrint st (strB "ERROR: EEPROM is faulty\r\n")
  | .other => uartPrint st (strB "FAIL: unable to write EEPROM\r\n")
  | .ok =>
      let st := uartPrint st (strB "OK\r\n")
      let st := { st with events := st.events ++ [Ev.delay] }
      { st with events := st.events ++ [Ev.reset] }

/-- cliDefaults: memset the whole configuration image to zero, restore
only the schema version, then persist-and-reboot. -/
def cliDefaults (env : Env) (st : St) (cmdline : Bytes) : St :=
  cliWriteConfig env
    { st with cfg := { gps_baud_rate := 0, ip_addr := 0, ip_gateway := 0,
                       ip_netmask := 0, version := CFG_VERSION } }

/-- cliExit: clear the pending count, disable the session, print the
notice. -/
def cliExit (env : Env) (st : St) (cmdline : Bytes) : St :=
  uartPrint { st with cl_count := 0, cl_enabled := 0 }
    (strB "Exiting cmdline mode.\r\nConfiguration changes have not been saved.\r\nPress Enter to enable cmdline.\r\n")

/-- cliHelp: header, then one uart_printf row per table entry. -/
def cliHelp (env : Env) (st : St) (cmdline : Bytes) : St :=
  let st := uartPrint st (strB "Available commands:\r\n")
  cmd_table.foldl
    (fun st c => uart_printf st (c.name ++ strB "\t" ++ c.param ++ strB "\r\n")) st

/-- cliVersion: one uartPrint of the concatenated hardware/software
lines (BOARD_REV comes from the environment). -/
def cliVersion (env : Env) (st : St) (cmdline : Bytes) : St :=
  uartPrint st
    (strB "Hardware:       " ++ env.board_rev ++ strB "\r\nSoftware:       " ++ VERSION ++ strB "\r\n")

/-- cli_print_hwaddr: label and line break (the address printing proper
is disabled in this source). -/
def cli_print_hwaddr (st : St) : St :=
  uartPrint (uartPrint st (strB "MAC Address:    ")) (strB "\r\n")

/-- cliUptime: label, the collaborator's uptime string, line break. -/
def cliUptime (env : Env) (st : St) (cmdline : Bytes) : St :=
  uartPrint (uartPrint (uartPrint st (strB "Uptime:         ")) env.uptime) (strB "\r\n")

/-- cliInfo: version, hardware address, uptime, then the clock line
through uart_printf. -/
def cliInfo (env : Env) (st : St) (cmdline : Bytes) : St :=
  let st := cliVersion env st []
  let st := cli_print_hwaddr st
  let st := cliUptime env st []
  uart_printf st (strB "System clock:   " ++ intB env.system_frequency ++ strB " Hz (nominal)\r\n")

/-- cliSave: persist-and-reboot with the configuration as it stands. -/
def cliSave (env : Env) (st : St) (cmdline : Bytes) : St :=
  cliWriteConfig env st

/-- The first-match loop of cliSet's assignment branch: test each table
entry with strncasecmp over the entry's own name length; on the first
match store, echo, and return; after the last entry report the unknown
variable name. -/
def cliSetLoop (st : St) (cmdline valstr : Bytes) : List clivalue → St
  | [] => uartPrint st (strB "ERR: Unknown variable name\r\n")
  | v :: rest =>
      if strncasecmp cmdline v.name v.name.length = 0 then
        let st := { st with cfg := cliSetVar st.cfg v valstr }
        let st := uart_printf st (v.name ++ strB " set to ")
        cliPrintVar st v 0
      else cliSetLoop st cmdline valstr rest

/-- cliSet: empty tail or the single character star lists every
variable; a tail containing an equals sign assigns through the
first-match loop (the value starts after the first equals sign, with
leading spaces skipped); any other tail falls through silently. -/
def cliSet (env : Env) (st : St) (cmdline : Bytes) : St :=
  let len := cmdline.length
  if len = 0 ∨ (len = 1 ∧ cmdline.headD 0 = 42) then
    let st := uartPrint st (strB "Current settings:\r\n")
    value_table.foldl
      (fun st v =>
        let st := uart_printf st (v.name ++ strB " = ")
        let st := cliPrintVar st v len
        uartPrint st (strB "\r\n")) st
  else
    match cmdline.findIdx? (fun b => b = 61) with
    | some i =>
        let valstr := (cmdline.drop (i + 1)).dropWhile (fun b => b = 32)
        cliSetLoop st cmdline valstr value_table
    | none => st

/-- Dispatch a command tag to its handler. -/
def runCmd : CmdId → Env → St → Bytes → St
  | .defaults => cliDefaults
  | .exit => cliExit
  | .help => cliHelp
  | .info => cliInfo
  | .save => cliSave
  | .set => cliSet
  | .uptime => cliUptime
  | .version => cliVersion

/-- cli_feed: the byte-driven input state machine, translated branch
for branch from cmdline.c. -/
def cli_feed (env : Env) (s : St) (c : Nat) : St :=
  if s.cl_enabled = 0 ∧ c ≠ 13 ∧ c ≠ 10 then s
  else
    let s := { s with cl_enabled := 1 }
    if c = 9 ∨ c = 63 then
      s
    else if s.cl_count = 0 ∧ c = 4 then
      cliExit env s (cstr s.cl_buf 0)
    else if c = 12 then
      cliPrompt (uartPrint s (strB "\x1b[2J\x1b[1;1H"))
    else if c = 10 ∨ c = 13 then
      let finish := fun (s : St) =>
        let s := if s.cl_enabled ≠ 0 then cliPrompt s else s
        bufWrite s 0 c
      if s.cl_count ≠ 0 then
        let s := uartPrint s (strB "\r\n")
        let s := bufWrite s s.cl_count 0
        let line := cstr s.cl_buf 0
        let s :=
          match bsearchC (fun p => cliCompare line p) cmd_table with
          | some cmd => runCmd cmd.func env s (cstr s.cl_buf (cmd.name.length + 1))
          | none => uartPrint s (strB "ERR: Unknown command, try \x27help\x27\r\n")
        finish (bufClear s)
      else if c = 10 ∧ s.cl_buf 0 = 13 then
        s
      else
        finish s
    else if c = 8 ∨ c = 127 then
      if s.cl_count ≠ 0 then
        let s := { s with cl_count := s.cl_count - 1 }
        uartPrint (bufWrite s s.cl_count 0) (strB "\x08 \x08")
      else s
    else if s.cl_count < CL_BUF_SIZE ∧ 32 ≤ c ∧ c ≤ 126 then
      if s.cl_count = 0 ∧ c = 32 then s
      else
        let s0 := bufWrite s s.cl_count c
        serial_putc { s0 with cl_count := s0.cl_count + 1 } c
    else s

/-- Feed a list of bytes in order. -/
def feedList (env : Env) (st : St) (bs : Bytes) : St :=
  bs.foldl (cli_feed env) st

/-- A concrete configuration for concrete runs. -/
def cfg0 : Cfg :=
  { gps_baud_rate := 57600, ip_addr := 0, ip_gateway := 0, ip_netmask := 0, version := 1 }

/-- A concrete collaborator environment for concrete runs. -/
def env0 : Env :=
  { eeprom_result := .ok, uptime := strB "0:00", system_frequency := 72000000, board_rev := strB "6" }

/-- The enabled idle state: empty zeroed buffer, empty trace. -/
def st0 : St :=
  { cl_enabled := 1, cl_count := 0, cl_buf := fun _ => 0, cfg := cfg0,
    events := [], writes := [] }

/-- C10: every uart_printf emission is the rendered text cut to the
63 characters that fit in the 64-byte fmt_buf beside the terminator,
appended to the trace as one event; longer text is silently truncated,
so a single formatted emission never exceeds 63 characters. -/
theorem C10_uart_printf_truncates (st : St) (rendered : Bytes) :
    (uart_printf st rendered).events =
      st.events ++ [Ev.out (rendered.take (FMT_BUF_SIZE - 1))] ∧
    (rendered.take (FMT_BUF_SIZE - 1)).length ≤ 63 := by
  refine ⟨rfl, ?_⟩
  simp [FMT_BUF_SIZE]

set_option maxRecDepth 40000

/-- C1 (divergence witness): cliSetVar on the IPv4-kind variable leaves
the referenced storage unchanged, because the store is commented out in
the source.  Dispatching the line set ip_addr=10.0.0.1 from an idle
state whose ip_addr word is 0 therefore keeps the word at 0, echoes
ip_addr set to 0.0.0.0, and a following set listing still prints
ip_addr = 0.0.0.0 instead of 10.0.0.1. -/
theorem C1_ip4_set_not_stored :
    cliSetVar cfg0 vIpAddr (strB "10.0.0.1") = cfg0 ∧
    (feedList env0 st0 (strB "set ip_addr=10.0.0.1" ++ [13])).cfg.ip_addr = 0 ∧
    (feedList env0 st0 (strB "set ip_addr=10.0.0.1" ++ [13])).events =
      (strB "set ip_addr=10.0.0.1").map Ev.outc ++
        [Ev.out (strB "\r\n"), Ev.out (strB "ip_addr set to "),
         Ev.out (strB "0.0.0.0"), Ev.out (strB "\r\n# ")] ∧
    (feedList env0 st0 (strB "set ip_addr=10.0.0.1" ++ [13] ++ strB "set" ++ [13])).events =
      (strB "set ip_addr=10.0.0.1").map Ev.outc ++
        [Ev.out (strB "\r\n"), Ev.out (strB "ip_addr set to "),
         Ev.out (strB "0.0.0.0"), Ev.out (strB "\r\n# ")] ++
      (strB "set").map Ev.outc ++
        [Ev.out (strB "\r\n"), Ev.out (strB "Current settings:\r\n"),
         Ev.out (strB "gps_baud_rate = "), Ev.out (strB "57600"), Ev.out (strB "\r\n"),
         Ev.out (strB "ip_addr = "), Ev.out (strB "0.0.0.0"), Ev.out (strB "\r\n"),
         Ev.out (strB "ip_gateway = "), Ev.out (strB "0.0.0.0"), Ev.out (strB "\r\n"),
         Ev.out (strB "ip_netmask = "), Ev.out (strB "0.0.0.0"), Ev.out (strB "\r\n"),
         Ev.out (strB "\r\n# ")] := by
  refine ⟨by decide, by decide, by decide, by decide⟩

/-- C2 (divergence witness): after 64 printable bytes the held length
is 64 = the capacity (every store so far went to an index below 64, and
a further printable byte is dropped without any change), but the
carriage return that completes the line stores the terminating sentinel
at index 64 — one cell past the end of the 64-byte cl_buf. -/
theorem C2_sentinel_written_past_buffer :
    (feedList env0 st0 (List.replicate 64 97)).cl_count = 64 ∧
    ((feedList env0 st0 (List.replicate 64 97)).writes.all (fun i => i < CL_BUF_SIZE)) = true ∧
    cli_feed env0 (feedList env0 st0 (List.replicate 64 97)) 97 =
      feedList env0 st0 (List.replicate 64 97) ∧
    ((cli_feed env0 (feedList env0 st0 (List.replicate 64 97)) 13).writes.contains 64) = true := by
  refine ⟨by decide, by decide, rfl, by decide⟩

/-- C4: dispatch compares the held line against table entries with
strncasecmp over the candidate entry's own name length.  Feeding only
the byte h and a terminator matches nothing and reports the unknown
command; feeding the exact name set (here in upper case, with the
argument star) dispatches cliSet with the text one character past the
command name as its tail; feeding set* — no separator typed — also
dispatches cliSet, with the star swallowed as the one skipped separator
character, so the tail is empty and the listing branch runs. -/
theorem C4_dispatch_candidate_length :
    (feedList env0 st0 ([104] ++ [13])).events =
      [Ev.outc 104, Ev.out (strB "\r\n"),
       Ev.out (strB "ERR: Unknown command, try \x27help\x27\r\n"),
       Ev.out (strB "\r\n# ")] ∧
    (feedList env0 st0 (strB "SET *" ++ [13])).events =
      (strB "SET *").map Ev.outc ++
        [Ev.out (strB "\r\n"), Ev.out (strB "Current settings:\r\n"),
         Ev.out (strB "gps_baud_rate = "), Ev.out (strB "57600"), Ev.out (strB "\r\n"),
         Ev.out (strB "ip_addr = "), Ev.out (strB "0.0.0.0"), Ev.out (strB "\r\n"),
         Ev.out (strB "ip_gateway = "), Ev.out (strB "0.0.0.0"), Ev.out (strB "\r\n"),
         Ev.out (strB "ip_netmask = "), Ev.out (strB "0.0.0.0"), Ev.out (strB "\r\n"),
         Ev.out (strB "\r\n# ")] ∧
    (feedList env0 st0 (strB "set*" ++ [13])).events =
      (strB "set*").map Ev.outc ++
        [Ev.out (strB "\r\n"), Ev.out (strB "Current settings:\r\n"),
         Ev.out (strB "gps_baud_rate = "), Ev.out (strB "57600"), Ev.out (strB "\r\n"),
         Ev.out (strB "ip_addr = "), Ev.out (strB "0.0.0.0"), Ev.out (strB "\r\n"),
         Ev.out (strB "ip_gateway = "), Ev.out (strB "0.0.0.0"), Ev.out (strB "\r\n"),
         Ev.out (strB "ip_netmask = "), Ev.out (strB "0.0.0.0"), Ev.out (strB "\r\n"),
         Ev.out (strB "\r\n# ")] := by
  refine ⟨by decide, by decide, by decide⟩

/-- C3: the persist-and-reboot sequence branches on the persistence
result: Timeout appends only its error message after the writing notice
(no delay, no reset); OK appends the OK message, then one delay, then
exactly one reset; NotAcknowledged, Fault and any other failure each
append their error message and never reset.  save runs exactly this
sequence. -/
theorem C3_persist_and_reboot (env : Env) (s : St) :
    (env.eeprom_result = .timeout →
      (cliWriteConfig env s).events = s.events ++
        [Ev.out (strB "Writing EEPROM...\r\n"),
         Ev.out (strB "ERROR: timeout while writing EEPROM\r\n")]) ∧
    (env.eeprom_result = .ok →
      (cliWriteConfig env s).events = s.events ++
        [Ev.out (strB "Writing EEPROM...\r\n"), Ev.out (strB "OK\r\n"),
         Ev.delay, Ev.reset] ∧
      (cliWriteConfig env s).events.count Ev.reset = s.events.count Ev.reset + 1 ∧
      (cliWriteConfig env s).events.count Ev.delay = s.events.count Ev.delay + 1) ∧
    (env.eeprom_result = .nack →
      (cliWriteConfig env s).events = s.events ++
        [Ev.out (strB "Writing EEPROM...\r\n"),
         Ev.out (strB "ERROR: EEPROM is faulty or missing\r\n")]) ∧
    (env.eeprom_result = .fault →
      (cliWriteConfig env s).events = s.events ++
        [Ev.out (strB "Writing EEPROM...\r\n"),
         Ev.out (strB "ERROR: EEPROM is faulty\r\n")]) ∧
    (env.eeprom_result = .other →
      (cliWriteConfig env s).events = s.events ++
        [Ev.out (strB "Writing EEPROM...\r\n"),
         Ev.out (strB "FAIL: unable to write EEPROM\r\n")]) ∧
    (env.eeprom_result ≠ .ok →
      (cliWriteConfig env s).events.count Ev.reset = s.events.count Ev.reset ∧
      (cliWriteConfig env s).events.count Ev.delay = s.events.count Ev.delay) ∧
    (∀ cmdline, cliSave env s cmdline = cliWriteConfig env s) := by
  cases h : env.eeprom_result <;>
    simp [cliWriteConfig, h, uartPrint, cliSave, List.count_append, List.count_cons]

/-- C3 witness: from the idle state, an OK result emits the notice and
OK, one delay and one reset; a Timeout result emits only the notice and
the timeout error. -/
theorem C3_persist_and_reboot_witness :
    (cliWriteConfig env0 st0).events = st0.events ++
      [Ev.out (strB "Writing EEPROM...\r\n"), Ev.out (strB "OK\r\n"),
       Ev.delay, Ev.reset] ∧
    (cliWriteConfig { env0 with eeprom_result := .timeout } st0).events = st0.events ++
      [Ev.out (strB "Writing EEPROM...\r\n"),
       Ev.out (strB "ERROR: timeout while writing EEPROM\r\n")] :=
  ⟨((C3_persist_and_reboot env0 st0).2.1 rfl).1,
   (C3_persist_and_reboot { env0 with eeprom_result := .timeout } st0).1 rfl⟩

/-- C5: after exit — dispatched by name or triggered by the EOF byte 4
on an empty buffer — the session is disabled with the pending count
cleared; while disabled, every byte other than carriage return and
newline leaves the state completely unchanged, and a carriage return or
newline re-enables the session. -/
theorem C5_exit_gates_input (env : Env) (s : St) (c : Nat) :
    (s.cl_enabled = 0 → c ≠ 13 → c ≠ 10 → cli_feed env s c = s) ∧
    (s.cl_enabled = 0 → s.cl_count = 0 →
      (cli_feed env s 13).cl_enabled = 1 ∧ (cli_feed env s 13).cl_count = 0 ∧
      (cli_feed env s 10).cl_enabled = 1 ∧ (cli_feed env s 10).cl_count = 0) ∧
    (s.cl_enabled = 1 → s.cl_count = 0 →
      (cli_feed env s 4).cl_enabled = 0 ∧ (cli_feed env s 4).cl_count = 0) ∧
    ((feedList env0 st0 (strB "exit" ++ [13])).cl_enabled = 0 ∧
     (feedList env0 st0 (strB "exit" ++ [13])).cl_count = 0) := by
  refine ⟨?_, ?_, ?_, by decide, by decide⟩
  · intro h1 h2 h3
    rw [cli_feed, if_pos ⟨h1, h2, h3⟩]
  · intro h1 h0
    by_cases hb : s.cl_buf 0 = 13 <;>
      simp [cli_feed, cliPrompt, bufWrite, uartPrint, h1, h0, hb]
  · intro h1 h0
    simp [cli_feed, cliExit, uartPrint, h1, h0]

/-- C5 witness: after dispatching exit, an ordinary byte (h) is
discarded with no state change at all. -/
theorem C5_exit_gates_input_witness :
    cli_feed env0 (feedList env0 st0 (strB "exit" ++ [13])) 104 =
      feedList env0 st0 (strB "exit" ++ [13]) :=
  (C5_exit_gates_input env0 (feedList env0 st0 (strB "exit" ++ [13])) 104).1
    (by decide) (by decide) (by decide)

/-- Helper: a tail that contains an equals sign is neither empty nor
the single star, so cliSet takes its assignment branch. -/
theorem cliSet_assign_branch (cmdline : Bytes) (i : Nat)
    (hfind : cmdline.findIdx? (fun b => b = 61) = some i) :
    ¬(cmdline.length = 0 ∨ (cmdline.length = 1 ∧ cmdline.headD 0 = 42)) := by
  rintro (h | ⟨h1, h2⟩)
  · rw [List.length_eq_zero] at h
    subst h
    have hnone : List.findIdx? (fun b => b = 61) ([] : Bytes) = none := rfl
    rw [hnone] at hfind
    cases hfind
  · rw [List.length_eq_one] at h1
    obtain ⟨a, rfl⟩ := h1
    simp at h2
    subst h2
    have hnone : List.findIdx? (fun b => b = 61) [42] = none := rfl
    rw [hnone] at hfind
    cases hfind

/-- C6: when the set argument tail contains an equals sign, only the
first table entry whose name prefix-matches the tail (compared over the
entry's own name length) is touched, the echo of the name and the value
held after the assignment is appended, and the handler returns at once:
a gps_baud_rate match stores the parsed value there and leaves every
other field unchanged; an IPv4-kind match leaves the whole record
unchanged (its store is disabled, see C1) and echoes the held value;
with no match the unknown-variable notice is emitted and no field
changes. -/
theorem C6_set_first_match_only (env : Env) (s : St) (cmdline : Bytes) (i : Nat)
    (hfind : cmdline.findIdx? (fun b => b = 61) = some i) :
    (strncasecmp cmdline vGps.name vGps.name.length = 0 →
      (cliSet env s cmdline).cfg.gps_baud_rate =
        atoi_decimal ((cmdline.drop (i + 1)).dropWhile (fun b => b = 32)) % 2 ^ 32 ∧
      (cliSet env s cmdline).cfg.ip_addr = s.cfg.ip_addr ∧
      (cliSet env s cmdline).cfg.ip_gateway = s.cfg.ip_gateway ∧
      (cliSet env s cmdline).cfg.ip_netmask = s.cfg.ip_netmask ∧
      (cliSet env s cmdline).cfg.version = s.cfg.version ∧
      (cliSet env s cmdline).events = s.events ++
        [Ev.out ((vGps.name ++ strB " set to ").take 63),
         Ev.out ((decB (atoi_decimal ((cmdline.drop (i + 1)).dropWhile (fun b => b = 32)) % 2 ^ 32)).take 63)]) ∧
    (¬ strncasecmp cmdline vGps.name vGps.name.length = 0 →
     strncasecmp cmdline vIpAddr.name vIpAddr.name.length = 0 →
      (cliSet env s cmdline).cfg = s.cfg ∧
      (cliSet env s cmdline).events = s.events ++
        [Ev.out ((vIpAddr.name ++ strB " set to ").take 63),
         Ev.out ((renderVar s.cfg vIpAddr).take 63)]) ∧
    (¬ strncasecmp cmdline vGps.name vGps.name.length = 0 →
     ¬ strncasecmp cmdline vIpAddr.name vIpAddr.name.length = 0 →
     strncasecmp cmdline vIpGw.name vIpGw.name.length = 0 →
      (cliSet env s cmdline).cfg = s.cfg ∧
      (cliSet env s cmdline).events = s.events ++
        [Ev.out ((vIpGw.name ++ strB " set to ").take 63),
         Ev.out ((renderVar s.cfg vIpGw).take 63)]) ∧
    (¬ strncasecmp cmdline vGps.name vGps.name.length = 0 →
     ¬ strncasecmp cmdline vIpAddr.name vIpAddr.name.length = 0 →
     ¬ strncasecmp cmdline vIpGw.name vIpGw.name.length = 0 →
     strncasecmp cmdline vIpMask.name vIpMask.name.length = 0 →
      (cliSet env s cmdline).cfg = s.cfg ∧
      (cliSet env s cmdline).events = s.events ++
        [Ev.out ((vIpMask.name ++ strB " set to ").take 63),
         Ev.out ((renderVar s.cfg vIpMask).take 63)]) ∧
    (¬ strncasecmp cmdline vGps.name vGps.name.length = 0 →
     ¬ strncasecmp cmdline vIpAddr.name vIpAddr.name.length = 0 →
     ¬ strncasecmp cmdline vIpGw.name vIpGw.name.length = 0 →
     ¬ strncasecmp cmdline vIpMask.name vIpMask.name.length = 0 →
      (cliSet env s cmdline).cfg = s.cfg ∧
      (cliSet env s cmdline).events = s.events ++
        [Ev.out (strB "ERR: Unknown variable name\r\n")]) := by
  have hbr := cliSet_assign_branch cmdline i hfind
  refine ⟨?_, ?_, ?_, ?_, ?_⟩
  · intro h0
    simp only [cliSet, hfind]
    rw [if_neg hbr]
    simp only [value_table, cliSetLoop]
    rw [if_pos h0]
    simp [cliSetVar, vGps, Cfg.setF, Cfg.get, cliPrintVar, renderVar, uart_printf,
      uartPrint, FMT_BUF_SIZE, decB]
  · intro h0 h1
    simp only [cliSet, hfind]
    rw [if_neg hbr]
    simp only [value_table, cliSetLoop]
    rw [if_neg h0, if_pos h1]
    simp [cliSetVar, vIpAddr, renderVar, Cfg.get, cliPrintVar, uart_printf,
      uartPrint, FMT_BUF_SIZE]
  · intro h0 h1 h2
    simp only [cliSet, hfind]
    rw [if_neg hbr]
    simp only [value_table, cliSetLoop]
    rw [if_neg h0, if_neg h1, if_pos h2]
    simp [cliSetVar, vIpGw, renderVar, Cfg.get, cliPrintVar, uart_printf,
      uartPrint, FMT_BUF_SIZE]
  · intro h0 h1 h2 h3
    simp only [cliSet, hfind]
    rw [if_neg hbr]
    simp only [value_table, cliSetLoop]
    rw [if_neg h0, if_neg h1, if_neg h2, if_pos h3]
    simp [cliSetVar, vIpMask, renderVar, Cfg.get, cliPrintVar, uart_printf,
      uartPrint, FMT_BUF_SIZE]
  · intro h0 h1 h2 h3
    simp only [cliSet, hfind]
    rw [if_neg hbr]
    simp only [value_table, cliSetLoop]
    rw [if_neg h0, if_neg h1, if_neg h2, if_neg h3]
    simp [uartPrint]

/-- C6 witness: assigning gps_baud_rate=9600 stores 9600 and leaves
ip_addr untouched; an unknown key zz=3 modifies nothing. -/
theorem C6_set_first_match_only_witness :
    (cliSet env0 st0 (strB "gps_baud_rate=9600")).cfg.gps_baud_rate = 9600 ∧
    (cliSet env0 st0 (strB "gps_baud_rate=9600")).cfg.ip_addr = 0 ∧
    (cliSet env0 st0 (strB "zz=3")).cfg = st0.cfg := by
  have h1 := (C6_set_first_match_only env0 st0 (strB "gps_baud_rate=9600") 13
    (by decide)).1 (by decide)
  have h2 := C6_set_first_match_only env0 st0 (strB "zz=3") 2 (by decide)
  exact ⟨h1.1.trans (by decide), h1.2.1.trans (by decide),
    (h2.2.2.2.2 (by decide) (by decide) (by decide) (by decide)).1⟩

/-- C7: set with an empty argument tail, or with the single character
star, prints all four registered variables in value-table order as
name = value lines and modifies no variable. -/
theorem C7_set_lists_all_vars (env : Env) (s : St) :
    ((cliSet env s []).cfg = s.cfg ∧
      (cliSet env s []).events = s.events ++
        [Ev.out (strB "Current settings:\r\n"),
         Ev.out ((vGps.name ++ strB " = ").take 63),
         Ev.out ((renderVar s.cfg vGps).take 63), Ev.out (strB "\r\n"),
         Ev.out ((vIpAddr.name ++ strB " = ").take 63),
         Ev.out ((renderVar s.cfg vIpAddr).take 63), Ev.out (strB "\r\n"),
         Ev.out ((vIpGw.name ++ strB " = ").take 63),
         Ev.out ((renderVar s.cfg vIpGw).take 63), Ev.out (strB "\r\n"),
         Ev.out ((vIpMask.name ++ strB " = ").take 63),
         Ev.out ((renderVar s.cfg vIpMask).take 63), Ev.out (strB "\r\n")]) ∧
    ((cliSet env s [42]).cfg = s.cfg ∧
      (cliSet env s [42]).events = s.events ++
        [Ev.out (strB "Current settings:\r\n"),
         Ev.out ((vGps.name ++ strB " = ").take 63),
         Ev.out ((renderVar s.cfg vGps).take 63), Ev.out (strB "\r\n"),
         Ev.out ((vIpAddr.name ++ strB " = ").take 63),
         Ev.out ((renderVar s.cfg vIpAddr).take 63), Ev.out (strB "\r\n"),
         Ev.out ((vIpGw.name ++ strB " = ").take 63),
         Ev.out ((renderVar s.cfg vIpGw).take 63), Ev.out (strB "\r\n"),
         Ev.out ((vIpMask.name ++ strB " = ").take 63),
         Ev.out ((renderVar s.cfg vIpMask).take 63), Ev.out (strB "\r\n")]) := by
  refine ⟨⟨?_, ?_⟩, ?_, ?_⟩ <;>
    simp [cliSet, value_table, cliPrintVar, uart_printf, uartPrint, FMT_BUF_SIZE]

/-- C8: a backspace or DEL byte on a non-empty buffer removes exactly
one character (the held length drops by one, the vacated cell is
zeroed, every other cell is untouched) and emits the visual erase
sequence; on an empty buffer it is a no-op, so the length never
underflows. -/
theorem C8_backspace_one_char (env : Env) (s : St) (c : Nat)
    (hen : s.cl_enabled = 1) (hc : c = 8 ∨ c = 127) :
    (s.cl_count = 0 → cli_feed env s c = s) ∧
    (s.cl_count ≠ 0 →
      (cli_feed env s c).cl_count = s.cl_count - 1 ∧
      (cli_feed env s c).cl_buf (s.cl_count - 1) = 0 ∧
      (∀ j, j ≠ s.cl_count - 1 → (cli_feed env s c).cl_buf j = s.cl_buf j) ∧
      (cli_feed env s c).events = s.events ++ [Ev.out (strB "\x08 \x08")]) := by
  obtain ⟨e, n, buf, cf, evs, ws⟩ := s
  simp only [St.cl_enabled] at hen
  subst hen
  constructor
  · intro hn
    simp only [St.cl_count] at hn
    subst hn
    rcases hc with rfl | rfl <;> simp [cli_feed]
  · intro hn
    simp only [St.cl_count] at hn
    rcases hc with rfl | rfl <;>
      refine ⟨by simp [cli_feed, bufWrite, uartPrint, hn],
              by simp [cli_feed, bufWrite, uartPrint, hn],
              fun j hj => by simp [cli_feed, bufWrite, uartPrint, hn, hj],
              by simp [cli_feed, bufWrite, uartPrint, hn]⟩

/-- C8 witness: after typing ab, one backspace leaves one held
character and appends the erase sequence to the trace. -/
theorem C8_backspace_one_char_witness :
    (cli_feed env0 (feedList env0 st0 (strB "ab")) 8).cl_count = 1 ∧
    (cli_feed env0 (feedList env0 st0 (strB "ab")) 8).events =
      [Ev.outc 97, Ev.outc 98, Ev.out (strB "\x08 \x08")] := by
  have h := (C8_backspace_one_char env0 (feedList env0 st0 (strB "ab")) 8
    (by decide) (Or.inl rfl)).2 (by decide)
  exact ⟨h.1.trans (by decide), h.2.2.2.trans (by decide)⟩

/-- C9: a space byte on an empty buffer is dropped without buffering or
echo, so feeding space, h, e, l, p and a terminator behaves exactly as
feeding h, e, l, p and the terminator: the help command is dispatched
with no leading space held. -/
theorem C9_leading_space_dropped (env : Env) (s : St)
    (hen : s.cl_enabled = 1) (h0 : s.cl_count = 0) :
    cli_feed env s 32 = s ∧
    feedList env0 st0 (strB " help" ++ [13]) = feedList env0 st0 (strB "help" ++ [13]) := by
  constructor
  · obtain ⟨e, n, buf, cf, evs, ws⟩ := s
    simp only [St.cl_enabled] at hen
    simp only [St.cl_count] at h0
    subst hen
    subst h0
    simp [cli_feed]
  · rfl

/-- C9 witness: a space fed to the idle empty state changes nothing. -/
theorem C9_leading_space_dropped_witness :
    cli_feed env0 st0 32 = st0 ∧
    feedList env0 st0 (strB " help" ++ [13]) = feedList env0 st0 (strB "help" ++ [13]) :=
  C9_leading_space_dropped env0 st0 rfl rfl

end Cmdline
